import Mathlib

/-!
Shallow embedding of the LSRstar simulation tick engine
(src/src/components/GameCanvas.tsx, src/src/constants.ts, src/src/types.ts).

Coordinates, sizes and speeds are rationals (all source constants are exact
decimals); timestamps are integers (milliseconds); health and score are
integers (the source never clamps health, so it may go negative).  Bullet
angles are real numbers because boss attack patterns compute them with pi
and trigonometric expressions; no collision or scoring logic ever reads an
angle.  Random string ids produced by `Math.random().toString()` are
dropped for bullets (never read back); enemy/boss ids are kept because the
boss cleanup logic compares them against the literal "dead".
-/

namespace LSRstar

/-! ### Constants (src/src/constants.ts) -/

def CANVAS_WIDTH : ℚ := 800
def CANVAS_HEIGHT : ℚ := 900
def PLAYER_SIZE : ℚ := 50
def PLAYER_SPEED : ℚ := 7
def PLAYER_MAX_HEALTH : Int := 3
def BULLET_WIDTH : ℚ := 4
def BULLET_HEIGHT : ℚ := 15
def BULLET_SPEED : ℚ := 15
def POWERUP_SIZE : ℚ := 30
def POWERUP_DURATION : Int := 10000

/-- Enemy type tags (src/src/types.ts `EnemyType`). -/
inductive EnemyType
  | BASIC
  | FAST
  | HEAVY
  | RANGED
deriving DecidableEq, Repr

/-- Power-up kinds (src/src/types.ts `PowerUpType`). -/
inductive PowerUpType
  | TRIPLE_SHOT
  | SHIELD
deriving DecidableEq, Repr

/-- Per-enemy-type tuning record (src/src/constants.ts `ENEMY_CONFIGS`
entries; the cosmetic `color` string is dropped). -/
structure EnemyConfig where
  width : ℚ
  height : ℚ
  speed : ℚ
  health : Int
  scoreValue : Int
deriving DecidableEq, Repr

def ENEMY_CONFIGS : EnemyType → EnemyConfig
  | .BASIC => ⟨40, 40, 2.5, 1, 100⟩
  | .FAST => ⟨30, 30, 5.5, 1, 200⟩
  | .HEAVY => ⟨60, 60, 1.5, 6, 500⟩
  | .RANGED => ⟨45, 45, 2.2, 3, 300⟩

/-- Per-boss-level tuning record (src/src/constants.ts `BOSS_CONFIGS`
entries; the cosmetic `color` string is dropped). -/
structure BossConfig where
  name : String
  width : ℚ
  height : ℚ
  health : Int
  scoreValue : Int
  speed : ℚ
deriving DecidableEq, Repr

/-- The `BOSS_CONFIGS` table is keyed by level and only defined at the five
boss levels, mirroring the TypeScript object literal. -/
def BOSS_CONFIGS : Nat → Option BossConfig
  | 5 => some ⟨"初级守卫", 150, 100, 100, 5000, 1.2⟩
  | 10 => some ⟨"虚空掠夺者", 200, 150, 300, 15000, 1.8⟩
  | 20 => some ⟨"星系毁灭者", 250, 200, 800, 50000, 2.5⟩
  | 30 => some ⟨"格赫罗斯之影", 300, 250, 2500, 100000, 3.2⟩
  | 50 => some ⟨"格赫罗斯本体", 400, 350, 10000, 500000, 4⟩
  | _ => none

/-! ### Entities (src/src/types.ts) -/

/-- Bullet entity (types.ts `Bullet`).  The random string id is omitted
(it is never read); `isEnemy` is optional in the source and absent means
false, modelled by a default value. -/
structure Bullet where
  x : ℚ
  y : ℚ
  width : ℚ
  height : ℚ
  speed : ℚ
  damage : Int
  angle : ℝ
  isEnemy : Bool := false

/-- Enemy entity, also used for bosses (types.ts `Enemy`). -/
structure Enemy where
  id : String
  type : EnemyType
  x : ℚ
  y : ℚ
  width : ℚ
  height : ℚ
  speed : ℚ
  health : Int
  maxHealth : Int
  scoreValue : Int
  isBoss : Bool := false
  attackTimer : Int := 0
deriving DecidableEq, Repr

/-- Power-up entity (types.ts `PowerUp`), id omitted. -/
structure PowerUp where
  type : PowerUpType
  x : ℚ
  y : ℚ
  width : ℚ
  height : ℚ
  speed : ℚ
deriving DecidableEq, Repr

/-- Player entity (types.ts `Player`), id omitted. -/
structure Player where
  x : ℚ
  y : ℚ
  width : ℚ
  height : ℚ
  speed : ℚ
  health : Int
  maxHealth : Int
  shieldActive : Bool
  invincible : Bool
  invincibleTimer : Int
  powerUpTimer : Int
  activePowerUp : Option PowerUpType
deriving DecidableEq, Repr

/-- The axis-aligned bounding-box overlap test used verbatim at every
collision site in `update` (GameCanvas.tsx lines 647-651, 669-673, 729-733,
751-755, 770-774, 794-798): strict inequalities on all four sides, with the
first rectangle's corner compared against the second's extents. -/
def rectsOverlap (ax ay aw ah bx bY bw bh : ℚ) : Prop :=
  ax < bx + bw ∧ ax + aw > bx ∧ ay < bY + bh ∧ ay + ah > bY

instance (ax ay aw ah bx bY bw bh : ℚ) :
    Decidable (rectsOverlap ax ay aw ah bx bY bw bh) := by
  unfold rectsOverlap
  infer_instance

/-! ### Escaped-enemy penalty (GameCanvas.tsx lines 616-622) -/

/-- Step 5's escaped-enemy check: enemies whose y exceeds the canvas height
are counted, the score drops by 50 per escapee floored at 0, and exactly
the enemies with y ≤ CANVAS_HEIGHT are kept. -/
def escapeStep (enemies : List Enemy) (score : Int) : List Enemy × Int :=
  let escaped := enemies.filter (fun e => decide (e.y > CANVAS_HEIGHT))
  if 0 < escaped.length then
    (enemies.filter (fun e => decide (e.y ≤ CANVAS_HEIGHT)),
      max 0 (score - 50 * escaped.length))
  else
    (enemies, score)

/-! ### Weapon system (GameCanvas.tsx lines 329-355) -/

/-- Fire gate interval: 200ms, dropped to 120ms from level 30 on
(lines 330-331). -/
def shotInterval (level : Nat) : Int :=
  if 30 ≤ level then 120 else 200

/-- The fire gate itself (line 333): the previous shot must be strictly
more than `shotInterval` milliseconds in the past. -/
def canShoot (now lastShot : Int) (level : Nat) : Prop :=
  now - lastShot > shotInterval level

/-- Bullet emission per shot (lines 334-353), translated branch by branch:
triple shot for an active TRIPLE_SHOT power-up or level in [15,25),
penta shot for level ≥ 25, double shot for level ≥ 5, single otherwise.
All player bullets carry damage 1 and `isEnemy = false`. -/
def fireBullets (level : Nat) (activePowerUp : Option PowerUpType)
    (px py pwidth : ℚ) : List Bullet :=
  let bulletX := px + pwidth / 2 - BULLET_WIDTH / 2
  let bulletY := py
  if activePowerUp = some PowerUpType.TRIPLE_SHOT ∨ (15 ≤ level ∧ level < 25) then
    [⟨bulletX, bulletY, BULLET_WIDTH, BULLET_HEIGHT, BULLET_SPEED, 1, 0, false⟩,
     ⟨bulletX, bulletY, BULLET_WIDTH, BULLET_HEIGHT, BULLET_SPEED, 1, -0.2, false⟩,
     ⟨bulletX, bulletY, BULLET_WIDTH, BULLET_HEIGHT, BULLET_SPEED, 1, 0.2, false⟩]
  else if 25 ≤ level then
    (List.range 5).map (fun (j : Nat) =>
      ⟨bulletX, bulletY, BULLET_WIDTH, BULLET_HEIGHT, BULLET_SPEED, 1,
        ((j : ℝ) - 2) * 0.15, false⟩)
  else if 5 ≤ level then
    [⟨px + 10, bulletY, BULLET_WIDTH, BULLET_HEIGHT, BULLET_SPEED, 1, 0, false⟩,
     ⟨px + pwidth - 10 - BULLET_WIDTH, bulletY, BULLET_WIDTH, BULLET_HEIGHT,
       BULLET_SPEED, 1, 0, false⟩]
  else
    [⟨bulletX, bulletY, BULLET_WIDTH, BULLET_HEIGHT, BULLET_SPEED, 1, 0, false⟩]

/-! ### Bullet vs boss / enemy collision pass (GameCanvas.tsx lines 642-722) -/

/-- The scalar progression cells threaded through the kill handler:
`scoreRef`, `levelRef`, `healthRef`, `lastLevelHealedRef`. -/
structure Prog where
  score : Int
  level : Int
  health : Int
  lastLevelHealed : Int
deriving DecidableEq, Repr

/-- Everything the regular-enemy kill branch does to the progression cells
(lines 680-703, achievements aside): add the score value, then — only with
no boss present — run the one-level-at-a-time threshold check, healing one
point every even level not yet healed before recording the new level. -/
def killProgress (bossCount : Nat) (scoreValue : Int) (p : Prog) : Prog :=
  let p := { p with score := p.score + scoreValue }
  if bossCount = 0 then
    if p.score ≥ p.level * 2000 then
      let nextLevel := p.level + 1
      let p :=
        if nextLevel % 2 = 0 ∧ nextLevel > p.lastLevelHealed then
          { p with
            health := if p.health < PLAYER_MAX_HEALTH then p.health + 1 else p.health,
            lastLevelHealed := nextLevel }
        else p
      { p with level := nextLevel }
    else p
  else p

/-- One bullet swept across the boss list (lines 646-665).  A hit subtracts
the bullet's damage, teleports the bullet to y = −100 (its removal mark,
which later overlap tests in the same pass observe), and on health ≤ 0
adds the boss's score value and rewrites its id to "dead".  No check of
`isEnemy` appears anywhere in this sweep. -/
def bulletVsBossList : Bullet → List Enemy → Int → Bullet × List Enemy × Int
  | b, [], score => (b, [], score)
  | b, e :: rest, score =>
    if rectsOverlap b.x b.y b.width b.height e.x e.y e.width e.height then
      let e1 : Enemy := { e with health := e.health - b.damage }
      let b1 : Bullet := { b with y := -100 }
      let ed : Enemy × Int :=
        if e1.health ≤ 0 then ({ e1 with id := "dead" }, score + e1.scoreValue)
        else (e1, score)
      let rec1 := bulletVsBossList b1 rest ed.2
      (rec1.1, ed.1 :: rec1.2.1, rec1.2.2)
    else
      let rec1 := bulletVsBossList b rest score
      (rec1.1, e :: rec1.2.1, rec1.2.2)

/-- One bullet swept across the regular-enemy list (lines 668-706): damage,
bullet removal mark, and on health ≤ 0 the full kill handler
`killProgress` with the current boss count.  Again no `isEnemy` check. -/
def bulletVsEnemyList (bossCount : Nat) :
    Bullet → List Enemy → Prog → Bullet × List Enemy × Prog
  | b, [], p => (b, [], p)
  | b, e :: rest, p =>
    if rectsOverlap b.x b.y b.width b.height e.x e.y e.width e.height then
      let e1 : Enemy := { e with health := e.health - b.damage }
      let b1 : Bullet := { b with y := -100 }
      let p1 := if e1.health ≤ 0 then killProgress bossCount e1.scoreValue p else p
      let rec1 := bulletVsEnemyList bossCount b1 rest p1
      (rec1.1, e1 :: rec1.2.1, rec1.2.2)
    else
      let rec1 := bulletVsEnemyList bossCount b rest p
      (rec1.1, e :: rec1.2.1, rec1.2.2)

/-- The full bullet collision pass (lines 644-707): every bullet is run
first over the bosses, then over the regular enemies, all mutations
threading into the next bullet's sweep. -/
def collisionPass :
    List Bullet → List Enemy → List Enemy → Prog →
      List Bullet × List Enemy × List Enemy × Prog
  | [], bosses, enemies, p => ([], bosses, enemies, p)
  | b :: rest, bosses, enemies, p =>
    let s1 := bulletVsBossList b bosses p.score
    let p1 : Prog := { p with score := s1.2.2 }
    let s2 := bulletVsEnemyList s1.2.1.length s1.1 enemies p1
    let s3 := collisionPass rest s1.2.1 s2.2.1 s2.2.2
    (s2.1 :: s3.1, s3.2.1, s3.2.2.1, s3.2.2.2)

/-- End-of-pass cull of dead regular enemies (line 708). -/
def cullDeadEnemies (enemies : List Enemy) : List Enemy :=
  enemies.filter (fun e => decide (0 < e.health))

/-- End-of-pass boss cleanup (lines 711-722): bosses marked "dead" are
filtered out, and clearing the last one bumps the level. -/
def bossCleanup (bosses : List Enemy) (level : Int) : List Enemy × Int :=
  let deadBosses := bosses.filter (fun b => decide (b.id = "dead"))
  if 0 < deadBosses.length then
    let bosses1 := bosses.filter (fun b => decide (b.id ≠ "dead"))
    if bosses1.length = 0 then (bosses1, level + 1) else (bosses1, level)
  else (bosses, level)

/-! ### Boss attack emission, center-spawned patterns (GameCanvas.tsx lines 385-435) -/

/-- Circular-burst pattern (lines 385-401): N bullets (20 from level 30,
else 12) all spawned at the attacking boss's center with
`isEnemy = true`. -/
noncomputable def circularBurst (level : Nat) (boss : Enemy) : List Bullet :=
  let count : Nat := if 30 ≤ level then 20 else 12
  let centerX := boss.x + boss.width / 2
  let centerY := boss.y + boss.height / 2
  (List.range count).map (fun (i : Nat) =>
    ⟨centerX, centerY, 8, 8, 4, 1, (i : ℝ) / (count : ℝ) * Real.pi * 2, true⟩)

/-- JavaScript's `Math.atan2(y, x)`: the argument of the point (x, y). -/
noncomputable def atan2 (y x : ℝ) : ℝ := Complex.arg ⟨x, y⟩

/-- Targeted-burst pattern (lines 402-418): an odd fan of `count` bullets
(5 from level 30, else 3) spawned at the boss's center, spread 0.15 rad
around the angle to the player's center, the loop index i running from
−⌊count/2⌋ to ⌊count/2⌋. -/
noncomputable def targetedBurst (level : Nat) (boss : Enemy)
    (px py pwidth pheight : ℚ) : List Bullet :=
  let centerX := boss.x + boss.width / 2
  let centerY := boss.y + boss.height / 2
  let angleToPlayer : ℝ :=
    atan2 ((px : ℝ) + (pwidth : ℝ) / 2 - (centerX : ℝ))
      (-((py : ℝ) + (pheight : ℝ) / 2 - (centerY : ℝ)))
  let count : Nat := if 30 ≤ level then 5 else 3
  (List.range (2 * (count / 2) + 1)).map (fun (j : Nat) =>
    ⟨centerX, centerY, 10, 10, 6, 1,
      angleToPlayer + ((j : ℝ) - ((count / 2 : Nat) : ℝ)) * 0.15, true⟩)

/-- Spiral pattern (lines 419-435): 4 bullets spawned at the boss's
center, their angles rotating with the wall clock (time = now/1000). -/
noncomputable def spiralBurst (now : Int) (boss : Enemy) : List Bullet :=
  let centerX := boss.x + boss.width / 2
  let centerY := boss.y + boss.height / 2
  let time : ℝ := (now : ℝ) / 1000
  (List.range 4).map (fun (i : Nat) =>
    ⟨centerX, centerY, 8, 8, 5, 1, time + (i : ℝ) / 4 * Real.pi * 2, true⟩)

/-! ### Player vs enemy bullets / bosses / enemies (GameCanvas.tsx lines 724-790) -/

/-- The two mutable cells the player-damage block writes: the player record
(shield, invincibility) and the separate `healthRef` counter that the
damage branches decrement. -/
structure HitCtx where
  player : Player
  healthRef : Int
deriving DecidableEq, Repr

/-- The shared body of all three player-hit sites (lines 735-742, 757-764,
776-785): a shielded hit only consumes the shield, an unshielded hit costs
one health point, and either way the invincibility flag and timer are set. -/
def applyPlayerHit (now : Int) (c : HitCtx) : HitCtx :=
  if c.player.shieldActive then
    { c with player :=
        { c.player with shieldActive := false, invincible := true, invincibleTimer := now } }
  else
    { player := { c.player with invincible := true, invincibleTimer := now },
      healthRef := c.healthRef - 1 }

/-- Enemy-bullet sweep over the player (lines 727-747): only bullets with
`isEnemy` are tested; a hit applies the shared hit body and teleports the
bullet to y = CANVAS_HEIGHT + 100 as its removal mark. -/
def playerVsEnemyBullets (now : Int) : List Bullet → HitCtx → List Bullet × HitCtx
  | [], c => ([], c)
  | b :: rest, c =>
    if b.isEnemy = true ∧
        rectsOverlap c.player.x c.player.y c.player.width c.player.height
          b.x b.y b.width b.height then
      let c1 := applyPlayerHit now c
      let rec1 := playerVsEnemyBullets now rest c1
      ({ b with y := CANVAS_HEIGHT + 100 } :: rec1.1, rec1.2)
    else
      let rec1 := playerVsEnemyBullets now rest c
      (b :: rec1.1, rec1.2)

/-- Boss-contact sweep (lines 750-767): the shared hit body per overlapping
boss; the boss itself is not modified. -/
def playerVsBosses (now : Int) : List Enemy → HitCtx → HitCtx
  | [], c => c
  | e :: rest, c =>
    if rectsOverlap c.player.x c.player.y c.player.width c.player.height
        e.x e.y e.width e.height then
      playerVsBosses now rest (applyPlayerHit now c)
    else
      playerVsBosses now rest c

/-- Enemy-contact sweep (lines 769-789): the shared hit body per
overlapping enemy, and the contacted enemy's health is zeroed
unconditionally. -/
def playerVsEnemies (now : Int) : List Enemy → HitCtx → List Enemy × HitCtx
  | [], c => ([], c)
  | e :: rest, c =>
    if rectsOverlap c.player.x c.player.y c.player.width c.player.height
        e.x e.y e.width e.height then
      let c1 := applyPlayerHit now c
      let rec1 := playerVsEnemies now rest c1
      ({ e with health := 0 } :: rec1.1, rec1.2)
    else
      let rec1 := playerVsEnemies now rest c
      (e :: rec1.1, rec1.2)

/-- The whole player-damage block (lines 725-790).  The invincibility guard
is evaluated once, up front: when it is set, none of the three sweeps runs
at all this tick. -/
def playerCollisionPhase (now : Int) (bullets : List Bullet)
    (bosses enemies : List Enemy) (c : HitCtx) :
    List Bullet × List Enemy × HitCtx :=
  if c.player.invincible then (bullets, enemies, c)
  else
    let s1 := playerVsEnemyBullets now bullets c
    let c2 := playerVsBosses now bosses s1.2
    let s3 := playerVsEnemies now enemies c2
    (s1.1, s3.1, s3.2)

/-- Timer expiry for the invincibility window (lines 813-815). -/
def expireInvincibility (now : Int) (p : Player) : Player :=
  if p.invincible = true ∧ now - p.invincibleTimer > 2000 then
    { p with invincible := false }
  else p

/-- The player-relevant slice of one tick, in tick order: the damage block
(step 13 of §4.1) followed by invincibility expiry (step 14). -/
def playerDamageTick (now : Int) (bullets : List Bullet)
    (bosses enemies : List Enemy) (c : HitCtx) :
    List Bullet × List Enemy × HitCtx :=
  let s := playerCollisionPhase now bullets bosses enemies c
  (s.1, s.2.1,
    { s.2.2 with player := expireInvincibility now s.2.2.player })

/-! ### Qualifying-hit counts used by the theorems -/

/-- Number of enemy bullets overlapping the player box at (px,py,pw,ph). -/
def enemyBulletHitCount (px py pw ph : ℚ) (bullets : List Bullet) : Nat :=
  bullets.countP (fun b =>
    b.isEnemy && decide (rectsOverlap px py pw ph b.x b.y b.width b.height))

/-- Number of enemies (or bosses) overlapping the player box. -/
def contactHitCount (px py pw ph : ℚ) (es : List Enemy) : Nat :=
  es.countP (fun e =>
    decide (rectsOverlap px py pw ph e.x e.y e.width e.height))

/-! ### Boss director (GameCanvas.tsx lines 478-545 and 220-229)

The source arms a host `setTimeout` for the 3000ms warning; the callback
closes over `now` and `config` from the triggering tick and reads the live
refs when it fires.  That deferred callback is modelled as a
`PendingSpawn` record carried in the world: it stores the wall-clock time
at which the timeout fires, the captured config and the captured trigger
timestamp, and `fireBossSpawn` executes the callback body once that time
is reached — with no game-state check, exactly as the callback has none. -/

/-- The armed 3000ms warning timeout: when it fires, the captured boss
config and the `now` captured at trigger time (used for attack and
entrance timers in the callback body). -/
structure PendingSpawn where
  fireAt : Int
  cfg : BossConfig
  trigNow : Int
deriving DecidableEq, Repr

/-- The mutable refs of the component that the director and the
pause-clearing effect touch. -/
structure World where
  enemies : List Enemy
  bullets : List Bullet
  powerUps : List PowerUp
  bosses : List Enemy
  level : Nat
  score : Int
  warningActive : Bool
  pendingSpawn : Option PendingSpawn
  bossEntranceTimer : Int

def bossLevels : List Nat := [5, 10, 20, 30, 50]

/-- Warning trigger (lines 479-488): at a boss level with no boss present
and no warning active, the warning flag is raised, all regular enemies are
cleared on the spot, and the 3000ms spawn timeout is armed. -/
def triggerBossWarning (w : World) (now : Int) : World :=
  if w.level ∈ bossLevels ∧ w.bosses.length = 0 ∧ w.warningActive = false then
    match BOSS_CONFIGS w.level with
    | some cfg =>
        { w with
          warningActive := true,
          enemies := [],
          pendingSpawn := some ⟨now + 3000, cfg, now⟩ }
    | none => w
  else w

/-- Boss record built by the timeout callback (lines 497-512): the i-th of
`bossCount` bosses, evenly spread over the field width, with the speed
sign alternating by index and the attack timer set to the captured
trigger-time `now`. -/
def mkWaveBoss (cfg : BossConfig) (trigNow : Int) (bossCount i : Nat) : Enemy :=
  { id := "boss_" ++ toString i
    type := EnemyType.BASIC
    x := CANVAS_WIDTH / ((bossCount : ℚ) + 1) * ((i : ℚ) + 1) - cfg.width / 2
    y := -cfg.height
    width := cfg.width
    height := cfg.height
    speed := cfg.speed * (if i % 2 = 0 then 1 else -1)
    health := cfg.health
    maxHealth := cfg.health
    scoreValue := cfg.scoreValue
    isBoss := true
    attackTimer := trigNow }

/-- Escort record built by the timeout callback (lines 520-536): a HEAVY
enemy with doubled health, evenly spread above the bosses. -/
def mkEscort (trigNow : Int) (escortCount i : Nat) : Enemy :=
  let eConfig := ENEMY_CONFIGS EnemyType.HEAVY
  { id := "escort_" ++ toString i
    type := EnemyType.HEAVY
    x := CANVAS_WIDTH / ((escortCount : ℚ) + 1) * ((i : ℚ) + 1) - eConfig.width / 2
    y := -eConfig.height - 100
    width := eConfig.width
    height := eConfig.height
    speed := eConfig.speed
    health := eConfig.health * 2
    maxHealth := eConfig.health * 2
    scoreValue := eConfig.scoreValue
    isBoss := false
    attackTimer := trigNow + 1000 }

/-- The timeout callback body (lines 488-544), firing once its deadline has
passed: push 2 bosses at level 20, 3 at level 30, otherwise 1 (level 50
explicitly resets to a single huge boss); push 2/3/5 doubled-health HEAVY
escorts at levels 20/30/50 and none otherwise; stamp the entrance timer
with the captured trigger time and drop the warning flag.  The callback
reads the live level and never checks the game state. -/
def fireBossSpawn (w : World) (now : Int) : World :=
  match w.pendingSpawn with
  | none => w
  | some pend =>
    if pend.fireAt ≤ now then
      let bossCount : Nat :=
        if w.level = 20 then 2 else if w.level = 30 then 3 else 1
      let newBosses := (List.range bossCount).map (mkWaveBoss pend.cfg pend.trigNow bossCount)
      let escortCount : Nat :=
        if w.level = 20 then 2 else if w.level = 30 then 3 else
          if w.level = 50 then 5 else 0
      let escorts := (List.range escortCount).map (mkEscort pend.trigNow escortCount)
      { w with
        bosses := w.bosses ++ newBosses,
        enemies := w.enemies ++ escorts,
        bossEntranceTimer := pend.trigNow,
        warningActive := false,
        pendingSpawn := none }
    else w

/-- The effect run on leaving PLAYING (lines 220-229): it clears the four
transient entity collections and nothing else — in particular neither
`bossWarningActiveRef` nor the armed spawn timeout is touched. -/
def clearTransientEntities (w : World) : World :=
  { w with enemies := [], bullets := [], powerUps := [], bosses := [] }

/-- Total number of qualifying collisions the player-damage block resolves
in one tick: overlapping enemy bullets, overlapping bosses, overlapping
enemies. -/
def totalPlayerHits (p : Player) (bullets : List Bullet)
    (bosses enemies : List Enemy) : Nat :=
  enemyBulletHitCount p.x p.y p.width p.height bullets +
    contactHitCount p.x p.y p.width p.height bosses +
    contactHitCount p.x p.y p.width p.height enemies

/-! ### Concrete sample entities used by witnesses and counterexamples -/

/-- An enemy bullet sitting on the origin, overlapping a player at the
origin. -/
def sampleEnemyBullet : Bullet :=
  { x := 0, y := 0, width := 4, height := 15, speed := 15, damage := 1,
    angle := 0, isEnemy := true }

/-- A player box at the origin with full health and no shield. -/
def samplePlayer : Player :=
  { x := 0, y := 0, width := 50, height := 50, speed := 7, health := 3,
    maxHealth := 3, shieldActive := false, invincible := false,
    invincibleTimer := 0, powerUpTimer := 0, activePowerUp := none }

/-- A BASIC enemy at the origin with 1 health. -/
def sampleEnemy : Enemy :=
  ⟨"e0", .BASIC, 0, 0, 40, 40, 2, 1, 1, 100, false, 0⟩

/-- A BASIC enemy far below the field (y = 1000 > CANVAS_HEIGHT). -/
def escapedEnemy : Enemy :=
  ⟨"esc", .BASIC, 10, 1000, 40, 40, 2, 1, 1, 100, false, 0⟩

/-- A BASIC enemy inside the field (y = 100). -/
def onFieldEnemy : Enemy :=
  ⟨"fld", .BASIC, 10, 100, 40, 40, 2, 1, 1, 100, false, 0⟩

/-- A world at level 5 with one on-field enemy, no bosses, no warning. -/
def sampleWorld : World :=
  { enemies := [onFieldEnemy], bullets := [], powerUps := [], bosses := [],
    level := 5, score := 0, warningActive := false, pendingSpawn := none,
    bossEntranceTimer := 0 }

/-- A player holding a shield, otherwise like `samplePlayer`. -/
def shieldedPlayer : Player :=
  { samplePlayer with shieldActive := true }

/-- A player bullet sitting on the origin, overlapping `sampleEnemy`. -/
def samplePlayerBullet : Bullet :=
  { x := 0, y := 0, width := 4, height := 15, speed := 15, damage := 1,
    angle := 0, isEnemy := false }

/-- A BASIC enemy at the origin that takes two hits to kill. -/
def toughEnemy : Enemy :=
  ⟨"e2", .BASIC, 0, 0, 40, 40, 2, 2, 2, 100, false, 0⟩

/-- A level-5-sized boss with integer coordinates. -/
def sampleBoss : Enemy :=
  ⟨"boss_0", .BASIC, 325, 50, 150, 100, 1, 100, 100, 5000, true, 0⟩

/-! ### Behaviour of the player-damage sweeps -/

lemma applyPlayerHit_x (now : Int) (c : HitCtx) :
    (applyPlayerHit now c).player.x = c.player.x := by
  unfold applyPlayerHit
  split <;> rfl

lemma applyPlayerHit_y (now : Int) (c : HitCtx) :
    (applyPlayerHit now c).player.y = c.player.y := by
  unfold applyPlayerHit
  split <;> rfl

lemma applyPlayerHit_width (now : Int) (c : HitCtx) :
    (applyPlayerHit now c).player.width = c.player.width := by
  unfold applyPlayerHit
  split <;> rfl

lemma applyPlayerHit_height (now : Int) (c : HitCtx) :
    (applyPlayerHit now c).player.height = c.player.height := by
  unfold applyPlayerHit
  split <;> rfl

lemma applyPlayerHit_shield (now : Int) (c : HitCtx) :
    (applyPlayerHit now c).player.shieldActive = false := by
  unfold applyPlayerHit
  split
  · rfl
  · next h => simpa using h

lemma applyPlayerHit_health (now : Int) (c : HitCtx) :
    (applyPlayerHit now c).healthRef =
      if c.player.shieldActive then c.healthRef else c.healthRef - 1 := by
  unfold applyPlayerHit
  split
  · next h => simp [h]
  · next h => simp [Bool.eq_false_iff.mpr h]

/-- Joint behaviour of the enemy-bullet sweep: the player box is
untouched, the shield survives exactly when no hit qualified, and the
health counter drops by the number of qualifying hits, the first one
refunded when the shield was up. -/
lemma playerVsEnemyBullets_spec (now : Int) (bullets : List Bullet) (c : HitCtx) :
    (playerVsEnemyBullets now bullets c).2.player.x = c.player.x ∧
    (playerVsEnemyBullets now bullets c).2.player.y = c.player.y ∧
    (playerVsEnemyBullets now bullets c).2.player.width = c.player.width ∧
    (playerVsEnemyBullets now bullets c).2.player.height = c.player.height ∧
    (playerVsEnemyBullets now bullets c).2.player.shieldActive =
      (c.player.shieldActive &&
        decide (enemyBulletHitCount c.player.x c.player.y c.player.width c.player.height
          bullets = 0)) ∧
    (playerVsEnemyBullets now bullets c).2.healthRef =
      c.healthRef -
        enemyBulletHitCount c.player.x c.player.y c.player.width c.player.height bullets +
        (if c.player.shieldActive = true ∧
            1 ≤ enemyBulletHitCount c.player.x c.player.y c.player.width c.player.height
              bullets
          then 1 else 0) := by
  induction bullets generalizing c with
  | nil =>
    simp [playerVsEnemyBullets, enemyBulletHitCount]
  | cons b rest ih =>
    rw [playerVsEnemyBullets]
    by_cases hq : b.isEnemy = true ∧
        rectsOverlap c.player.x c.player.y c.player.width c.player.height
          b.x b.y b.width b.height
    · rw [if_pos hq]
      have ihc := ih (applyPlayerHit now c)
      rw [applyPlayerHit_x, applyPlayerHit_y, applyPlayerHit_width,
        applyPlayerHit_height, applyPlayerHit_shield, applyPlayerHit_health] at ihc
      obtain ⟨hx, hy, hw, hh, hs, hhp⟩ := ihc
      have hcount : enemyBulletHitCount c.player.x c.player.y c.player.width
          c.player.height (b :: rest) =
          enemyBulletHitCount c.player.x c.player.y c.player.width c.player.height rest
            + 1 := by
        simp [enemyBulletHitCount, List.countP_cons, hq.1, hq.2]
      refine ⟨by simpa [applyPlayerHit_x] using hx,
        by simpa [applyPlayerHit_y] using hy,
        by simpa [applyPlayerHit_width] using hw,
        by simpa [applyPlayerHit_height] using hh, ?_, ?_⟩
      · rw [hcount]
        simpa using hs
      · rw [hcount, hhp]
        split_ifs <;> simp_all <;> omega
    · rw [if_neg hq]
      have hcount : enemyBulletHitCount c.player.x c.player.y c.player.width
          c.player.height (b :: rest) =
          enemyBulletHitCount c.player.x c.player.y c.player.width c.player.height rest := by
        simp only [enemyBulletHitCount, List.countP_cons]
        have : (b.isEnemy && decide (rectsOverlap c.player.x c.player.y c.player.width
            c.player.height b.x b.y b.width b.height)) = false := by
          rcases Decidable.not_and_iff_or_not.mp hq with h | h
          · simp [Bool.eq_false_iff.mpr h]
          · simp [decide_eq_false h]
        simp [this]
      rw [hcount]
      exact ih c

/-- Joint behaviour of the boss-contact sweep, mirroring
`playerVsEnemyBullets_spec`. -/
lemma playerVsBosses_spec (now : Int) (bosses : List Enemy) (c : HitCtx) :
    (playerVsBosses now bosses c).player.x = c.player.x ∧
    (playerVsBosses now bosses c).player.y = c.player.y ∧
    (playerVsBosses now bosses c).player.width = c.player.width ∧
    (playerVsBosses now bosses c).player.height = c.player.height ∧
    (playerVsBosses now bosses c).player.shieldActive =
      (c.player.shieldActive &&
        decide (contactHitCount c.player.x c.player.y c.player.width c.player.height
          bosses = 0)) ∧
    (playerVsBosses now bosses c).healthRef =
      c.healthRef -
        contactHitCount c.player.x c.player.y c.player.width c.player.height bosses +
        (if c.player.shieldActive = true ∧
            1 ≤ contactHitCount c.player.x c.player.y c.player.width c.player.height bosses
          then 1 else 0) := by
  induction bosses generalizing c with
  | nil =>
    simp [playerVsBosses, contactHitCount]
  | cons e rest ih =>
    rw [playerVsBosses]
    by_cases hq : rectsOverlap c.player.x c.player.y c.player.width c.player.height
        e.x e.y e.width e.height
    · rw [if_pos hq]
      have ihc := ih (applyPlayerHit now c)
      rw [applyPlayerHit_x, applyPlayerHit_y, applyPlayerHit_width,
        applyPlayerHit_height, applyPlayerHit_shield, applyPlayerHit_health] at ihc
      obtain ⟨hx, hy, hw, hh, hs, hhp⟩ := ihc
      have hcount : contactHitCount c.player.x c.player.y c.player.width
          c.player.height (e :: rest) =
          contactHitCount c.player.x c.player.y c.player.width c.player.height rest + 1 := by
        simp [contactHitCount, List.countP_cons, hq]
      refine ⟨hx, hy, hw, hh, ?_, ?_⟩
      · rw [hcount]
        simpa using hs
      · rw [hcount, hhp]
        split_ifs <;> simp_all <;> omega
    · rw [if_neg hq]
      have hcount : contactHitCount c.player.x c.player.y c.player.width
          c.player.height (e :: rest) =
          contactHitCount c.player.x c.player.y c.player.width c.player.height rest := by
        simp [contactHitCount, List.countP_cons, decide_eq_false hq]
      rw [hcount]
      exact ih c

/-- Joint behaviour of the enemy-contact sweep: additionally, the output
list is the input list with every overlapping enemy's health zeroed,
independent of shield, health or timer state. -/
lemma playerVsEnemies_spec (now : Int) (enemies : List Enemy) (c : HitCtx) :
    (playerVsEnemies now enemies c).1 =
      enemies.map (fun e =>
        if rectsOverlap c.player.x c.player.y c.player.width c.player.height
            e.x e.y e.width e.height
        then { e with health := 0 } else e) ∧
    (playerVsEnemies now enemies c).2.player.x = c.player.x ∧
    (playerVsEnemies now enemies c).2.player.y = c.player.y ∧
    (playerVsEnemies now enemies c).2.player.width = c.player.width ∧
    (playerVsEnemies now enemies c).2.player.height = c.player.height ∧
    (playerVsEnemies now enemies c).2.player.shieldActive =
      (c.player.shieldActive &&
        decide (contactHitCount c.player.x c.player.y c.player.width c.player.height
          enemies = 0)) ∧
    (playerVsEnemies now enemies c).2.healthRef =
      c.healthRef -
        contactHitCount c.player.x c.player.y c.player.width c.player.height enemies +
        (if c.player.shieldActive = true ∧
            1 ≤ contactHitCount c.player.x c.player.y c.player.width c.player.height
              enemies
          then 1 else 0) := by
  induction enemies generalizing c with
  | nil =>
    simp [playerVsEnemies, contactHitCount]
  | cons e rest ih =>
    rw [playerVsEnemies]
    by_cases hq : rectsOverlap c.player.x c.player.y c.player.width c.player.height
        e.x e.y e.width e.height
    · rw [if_pos hq]
      have ihc := ih (applyPlayerHit now c)
      rw [applyPlayerHit_x, applyPlayerHit_y, applyPlayerHit_width,
        applyPlayerHit_height, applyPlayerHit_shield, applyPlayerHit_health] at ihc
      obtain ⟨hlist, hx, hy, hw, hh, hs, hhp⟩ := ihc
      have hcount : contactHitCount c.player.x c.player.y c.player.width
          c.player.height (e :: rest) =
          contactHitCount c.player.x c.player.y c.player.width c.player.height rest + 1 := by
        simp [contactHitCount, List.countP_cons, hq]
      refine ⟨?_, hx, hy, hw, hh, ?_, ?_⟩
      · simp only [List.map_cons, if_pos hq]
        exact congrArg _ hlist
      · rw [hcount]
        simpa using hs
      · rw [hcount, hhp]
        split_ifs <;> simp_all <;> omega
    · rw [if_neg hq]
      have hcount : contactHitCount c.player.x c.player.y c.player.width
          c.player.height (e :: rest) =
          contactHitCount c.player.x c.player.y c.player.width c.player.height rest := by
        simp [contactHitCount, List.countP_cons, decide_eq_false hq]
      have ihc := ih c
      obtain ⟨hlist, hx, hy, hw, hh, hs, hhp⟩ := ihc
      rw [hcount]
      refine ⟨?_, hx, hy, hw, hh, hs, hhp⟩
      simp only [List.map_cons, if_neg hq]
      exact congrArg _ hlist

/-- Composite behaviour of the whole player-damage block when the player is
not invincible at its entry: health drops by the total number of
qualifying hits with the first one refunded if the shield was up, and the
shield survives exactly when nothing hit. -/
lemma playerCollisionPhase_spec (now : Int) (bullets : List Bullet)
    (bosses enemies : List Enemy) (c : HitCtx)
    (hinv : c.player.invincible = false) :
    (playerCollisionPhase now bullets bosses enemies c).2.2.healthRef =
      c.healthRef - totalPlayerHits c.player bullets bosses enemies +
        (if c.player.shieldActive = true ∧
            1 ≤ totalPlayerHits c.player bullets bosses enemies
          then 1 else 0) ∧
    (playerCollisionPhase now bullets bosses enemies c).2.2.player.shieldActive =
      (c.player.shieldActive &&
        decide (totalPlayerHits c.player bullets bosses enemies = 0)) ∧
    (playerCollisionPhase now bullets bosses enemies c).2.1 =
      enemies.map (fun e =>
        if rectsOverlap c.player.x c.player.y c.player.width c.player.height
            e.x e.y e.width e.height
        then { e with health := 0 } else e) := by
  unfold playerCollisionPhase
  rw [if_neg (by simp [hinv])]
  obtain ⟨bx, bY, bw, bh, bs, bhp⟩ := playerVsEnemyBullets_spec now bullets c
  obtain ⟨cx, cy, cw, ch, cs, chp⟩ :=
    playerVsBosses_spec now bosses (playerVsEnemyBullets now bullets c).2
  obtain ⟨elist, ex, ey, ew, eh, es, ehp⟩ :=
    playerVsEnemies_spec now enemies
      (playerVsBosses now bosses (playerVsEnemyBullets now bullets c).2)
  simp only [bx, bY, bw, bh] at cx cy cw ch cs chp
  simp only [bs, bhp] at cs chp
  simp only [bx, bY, bw, bh, cx, cy, cw, ch] at elist es ehp
  simp only [cs, chp] at es ehp
  refine ⟨?_, ?_, elist⟩
  · rw [ehp]
    simp only [totalPlayerHits]
    cases hc : c.player.shieldActive <;>
      simp only [hc, Bool.false_and, Bool.true_and, Bool.and_eq_true,
        decide_eq_true_eq, Bool.false_eq_true, false_and, true_and] <;>
      split_ifs <;> simp_all <;> omega
  · rw [es]
    simp only [totalPlayerHits]
    cases hc : c.player.shieldActive
    · simp [hc]
    · simp only [hc, Bool.true_and]
      by_cases h1 : enemyBulletHitCount c.player.x c.player.y c.player.width
          c.player.height bullets = 0 <;>
        by_cases h2 : contactHitCount c.player.x c.player.y c.player.width
          c.player.height bosses = 0 <;>
        by_cases h3 : contactHitCount c.player.x c.player.y c.player.width
          c.player.height enemies = 0 <;>
        simp_all

/-! ### C1 — health bounds -/

/-- C1 counterexample: health 1 (within [0, maxHealth]), no shield, not
invincible, and two enemy bullets overlapping the player in the same tick:
the collision block resolves both and leaves health at −1, below 0. -/
theorem health_lower_bound_counterexample :
    (playerCollisionPhase 0 [sampleEnemyBullet, sampleEnemyBullet] [] []
      ⟨samplePlayer, 1⟩).2.2.healthRef = -1 := by
  norm_num [playerCollisionPhase, playerVsEnemyBullets, playerVsBosses,
    playerVsEnemies, applyPlayerHit, samplePlayer, sampleEnemyBullet,
    rectsOverlap, CANVAS_HEIGHT]

/-- C1 (amended): healing never raises health above maxHealth, but there is
no lower clamp: with the shield down and the player not invincible at the
start of the damage block, one tick's collisions decrease health by exactly
the number of qualifying hits, which can drive it below 0. -/
theorem health_bounds_amended (now : Int) (bullets : List Bullet)
    (bosses enemies : List Enemy) (c : HitCtx)
    (hshield : c.player.shieldActive = false)
    (hinv : c.player.invincible = false) :
    (playerCollisionPhase now bullets bosses enemies c).2.2.healthRef =
      c.healthRef - totalPlayerHits c.player bullets bosses enemies ∧
    (∀ (bossCount : Nat) (scoreValue : Int) (p : Prog),
      p.health ≤ PLAYER_MAX_HEALTH →
      (killProgress bossCount scoreValue p).health ≤ PLAYER_MAX_HEALTH) := by
  constructor
  · have h := (playerCollisionPhase_spec now bullets bosses enemies c hinv).1
    rw [h, hshield]
    simp
  · intro bossCount scoreValue p hp
    unfold killProgress
    simp only [apply_ite Prog.health]
    split_ifs <;> simp_all <;> omega

/-- Witness for C1 (amended) at one enemy bullet on an unshielded player. -/
theorem health_bounds_amended_witness :
    (HitCtx.mk samplePlayer 3).player.shieldActive = false ∧
    (HitCtx.mk samplePlayer 3).player.invincible = false ∧
    ((playerCollisionPhase 0 [sampleEnemyBullet] [] []
        (HitCtx.mk samplePlayer 3)).2.2.healthRef =
      (HitCtx.mk samplePlayer 3).healthRef -
        totalPlayerHits (HitCtx.mk samplePlayer 3).player [sampleEnemyBullet] [] [] ∧
    (∀ (bossCount : Nat) (scoreValue : Int) (p : Prog),
      p.health ≤ PLAYER_MAX_HEALTH →
      (killProgress bossCount scoreValue p).health ≤ PLAYER_MAX_HEALTH)) :=
  ⟨rfl, rfl,
    health_bounds_amended 0 [sampleEnemyBullet] [] [] (HitCtx.mk samplePlayer 3) rfl rfl⟩

/-! ### C4 — invincibility window -/

/-- C4 counterexample: the player takes a hit at t=0 (one bullet: health
3 → 2, invincibility set), yet with a second overlapping bullet in the same
tick — well inside the 2000ms window of the first hit — the tick ends at
health 1: the further same-tick collision cost another health point. -/
theorem invincibility_same_tick_counterexample :
    (playerDamageTick 0 [sampleEnemyBullet] [] []
      ⟨samplePlayer, 3⟩).2.2.healthRef = 2 ∧
    (playerDamageTick 0 [sampleEnemyBullet, sampleEnemyBullet] [] []
      ⟨samplePlayer, 3⟩).2.2.healthRef = 1 := by
  constructor <;>
    norm_num [playerDamageTick, playerCollisionPhase, playerVsEnemyBullets,
      playerVsBosses, playerVsEnemies, applyPlayerHit, expireInvincibility,
      samplePlayer, sampleEnemyBullet, rectsOverlap, CANVAS_HEIGHT]

/-- C4 (amended): a collision in a *later* tick within 2000ms of the hit
costs nothing — once the invincibility flag is up and the window has not
elapsed, the whole damage block is skipped, health is unchanged, and the
expiry step keeps the flag up; further collisions resolved in the same
tick as the original hit, however, do deduct health (see the
counterexample). -/
theorem invincibility_window_amended (now : Int) (bullets : List Bullet)
    (bosses enemies : List Enemy) (c : HitCtx)
    (hinv : c.player.invincible = true)
    (hwin : now - c.player.invincibleTimer ≤ 2000) :
    (playerDamageTick now bullets bosses enemies c).2.2.healthRef = c.healthRef ∧
    (playerDamageTick now bullets bosses enemies c).2.2.player.invincible = true := by
  have hskip : playerCollisionPhase now bullets bosses enemies c = (bullets, enemies, c) := by
    unfold playerCollisionPhase
    rw [if_pos (by simp [hinv])]
  have hexp : expireInvincibility now c.player = c.player := by
    unfold expireInvincibility
    rw [if_neg (by rintro ⟨-, h2⟩; omega)]
  unfold playerDamageTick
  rw [hskip]
  exact ⟨rfl, by simpa [hexp] using hinv⟩

/-- Witness for C4 (amended): an invincible player hit 1500ms ago ignores
an overlapping enemy bullet. -/
theorem invincibility_window_amended_witness :
    (HitCtx.mk { samplePlayer with invincible := true } 3).player.invincible = true ∧
    ((1500 : Int) -
      (HitCtx.mk { samplePlayer with invincible := true } 3).player.invincibleTimer ≤ 2000) ∧
    ((playerDamageTick 1500 [sampleEnemyBullet] [] []
        (HitCtx.mk { samplePlayer with invincible := true } 3)).2.2.healthRef =
      (HitCtx.mk { samplePlayer with invincible := true } 3).healthRef ∧
    (playerDamageTick 1500 [sampleEnemyBullet] [] []
        (HitCtx.mk { samplePlayer with invincible := true } 3)).2.2.player.invincible = true) :=
  ⟨rfl, by decide,
    invincibility_window_amended 1500 [sampleEnemyBullet] [] []
      (HitCtx.mk { samplePlayer with invincible := true } 3) rfl (by decide)⟩

/-! ### C5 — shield absorbs exactly one hit -/

/-- C5: with the shield up, the player not invincible, and exactly one
qualifying hit resolved this tick, the block ends with the shield consumed
and health unchanged. -/
theorem shield_single_hit (now : Int) (bullets : List Bullet)
    (bosses enemies : List Enemy) (c : HitCtx)
    (hshield : c.player.shieldActive = true)
    (hinv : c.player.invincible = false)
    (hone : totalPlayerHits c.player bullets bosses enemies = 1) :
    (playerCollisionPhase now bullets bosses enemies c).2.2.player.shieldActive = false ∧
    (playerCollisionPhase now bullets bosses enemies c).2.2.healthRef = c.healthRef := by
  obtain ⟨hh, hs, -⟩ := playerCollisionPhase_spec now bullets bosses enemies c hinv
  constructor
  · rw [hs, hone, hshield]
    simp
  · rw [hh, hone, hshield]
    simp

/-- Witness for C5: a shielded player and a single overlapping enemy
bullet. -/
theorem shield_single_hit_witness :
    (HitCtx.mk shieldedPlayer 3).player.shieldActive = true ∧
    (HitCtx.mk shieldedPlayer 3).player.invincible = false ∧
    totalPlayerHits (HitCtx.mk shieldedPlayer 3).player [sampleEnemyBullet] [] [] = 1 ∧
    ((playerCollisionPhase 0 [sampleEnemyBullet] [] []
        (HitCtx.mk shieldedPlayer 3)).2.2.player.shieldActive = false ∧
    (playerCollisionPhase 0 [sampleEnemyBullet] [] []
        (HitCtx.mk shieldedPlayer 3)).2.2.healthRef =
      (HitCtx.mk shieldedPlayer 3).healthRef) :=
  ⟨rfl, rfl,
    by simp [totalPlayerHits, enemyBulletHitCount, contactHitCount,
      shieldedPlayer, samplePlayer, sampleEnemyBullet, rectsOverlap],
    shield_single_hit 0 [sampleEnemyBullet] [] [] (HitCtx.mk shieldedPlayer 3) rfl rfl
      (by simp [totalPlayerHits, enemyBulletHitCount, contactHitCount,
        shieldedPlayer, samplePlayer, sampleEnemyBullet, rectsOverlap])⟩

/-! ### C6 — contact destroys the enemy only when not invincible -/

/-- C6 counterexample: a regular enemy overlapping an *invincible* player
is not destroyed — the whole damage block is skipped, so its health stays
1 and it is not zeroed, even though the bounding boxes overlap. -/
theorem enemy_contact_invincible_counterexample :
    rectsOverlap samplePlayer.x samplePlayer.y samplePlayer.width samplePlayer.height
      sampleEnemy.x sampleEnemy.y sampleEnemy.width sampleEnemy.height ∧
    (playerCollisionPhase 0 [] [] [sampleEnemy]
      ⟨{ samplePlayer with invincible := true }, 3⟩).2.1 = [sampleEnemy] ∧
    sampleEnemy.health = 1 := by
  refine ⟨by norm_num [rectsOverlap, samplePlayer, sampleEnemy], rfl, rfl⟩

/-- C6 (amended): provided the player is not invincible when the damage
block starts, every regular enemy overlapping the player has its health
zeroed — independently of the shield or of whether the player lost
health. -/
theorem enemy_contact_destroy_amended (now : Int) (bullets : List Bullet)
    (bosses enemies : List Enemy) (c : HitCtx)
    (hinv : c.player.invincible = false) :
    (playerCollisionPhase now bullets bosses enemies c).2.1 =
      enemies.map (fun e =>
        if rectsOverlap c.player.x c.player.y c.player.width c.player.height
            e.x e.y e.width e.height
        then { e with health := 0 } else e) :=
  (playerCollisionPhase_spec now bullets bosses enemies c hinv).2.2

/-- Witness for C6 (amended): an overlapping enemy against a shielded,
non-invincible player. -/
theorem enemy_contact_destroy_amended_witness :
    (HitCtx.mk shieldedPlayer 3).player.invincible = false ∧
    (playerCollisionPhase 0 [] [] [sampleEnemy] (HitCtx.mk shieldedPlayer 3)).2.1 =
      [sampleEnemy].map (fun e =>
        if rectsOverlap (HitCtx.mk shieldedPlayer 3).player.x
            (HitCtx.mk shieldedPlayer 3).player.y
            (HitCtx.mk shieldedPlayer 3).player.width
            (HitCtx.mk shieldedPlayer 3).player.height
            e.x e.y e.width e.height
        then { e with health := 0 } else e) :=
  ⟨rfl, enemy_contact_destroy_amended 0 [] [] [sampleEnemy]
    (HitCtx.mk shieldedPlayer 3) rfl⟩

/-! ### C10 — escape penalty -/

/-- C10: in a tick where N ≥ 1 regular enemies have y beyond the field
height, the score decreases by exactly min(score, 50·N) — hence never goes
negative — and exactly those N enemies are removed. -/
theorem escape_penalty_exact (enemies : List Enemy) (score : Int)
    (hscore : 0 ≤ score)
    (hN : 1 ≤ (enemies.filter (fun e => decide (e.y > CANVAS_HEIGHT))).length) :
    (escapeStep enemies score).2 =
      score -
        min score (50 * ((enemies.filter (fun e => decide (e.y > CANVAS_HEIGHT))).length : Int)) ∧
    (escapeStep enemies score).1 = enemies.filter (fun e => decide (e.y ≤ CANVAS_HEIGHT)) := by
  unfold escapeStep
  rw [if_pos (by omega)]
  refine ⟨?_, rfl⟩
  omega

/-- Witness for C10 at a concrete world: one escaped enemy, score 30,
penalty min(30, 50) = 30. -/
theorem escape_penalty_exact_witness :
    (escapeStep [escapedEnemy, onFieldEnemy] 30).2 =
      30 -
        min 30 (50 * (([escapedEnemy, onFieldEnemy].filter
          (fun e => decide (e.y > CANVAS_HEIGHT))).length : Int)) ∧
    (escapeStep [escapedEnemy, onFieldEnemy] 30).1 =
      [escapedEnemy, onFieldEnemy].filter (fun e => decide (e.y ≤ CANVAS_HEIGHT)) :=
  escape_penalty_exact [escapedEnemy, onFieldEnemy] 30 (by decide) (by decide)

/-! ### C8 — weapon tiering and fire gate -/

/-- C8: with no TRIPLE_SHOT power-up active, a shot at level 24 emits
exactly 3 bullets at angles 0, −0.2, 0.2; a shot at any level ≥ 25 emits
exactly 5 bullets at angles −0.3, −0.15, 0, 0.15, 0.3; and the fire-gate
interval is 200ms, dropping to 120ms exactly from level 30 on. -/
theorem weapon_tiering (ap : Option PowerUpType)
    (hap : ap ≠ some PowerUpType.TRIPLE_SHOT) (px py pw : ℚ) :
    ((fireBullets 24 ap px py pw).map Bullet.angle = [0, -0.2, 0.2] ∧
      (fireBullets 24 ap px py pw).length = 3) ∧
    (∀ level, 25 ≤ level →
      (fireBullets level ap px py pw).map Bullet.angle = [-0.3, -0.15, 0, 0.15, 0.3] ∧
      (fireBullets level ap px py pw).length = 5) ∧
    (∀ level, shotInterval level = if 30 ≤ level then 120 else 200) := by
  refine ⟨?_, ?_, fun level => rfl⟩
  · rw [fireBullets, if_pos (Or.inr (by omega))]
    exact ⟨rfl, rfl⟩
  · intro level hlevel
    rw [fireBullets, if_neg (by rintro (h | ⟨h1, h2⟩) <;> [exact hap h; omega]),
      if_pos hlevel]
    refine ⟨?_, rfl⟩
    simp only [List.map_map, List.range_succ, List.range_zero, List.map_append,
      List.map_cons, List.map_nil, List.nil_append, List.cons_append, Function.comp]
    norm_num

/-- Witness for C8 with no active power-up and the player at the origin. -/
theorem weapon_tiering_witness :
    ((none : Option PowerUpType) ≠ some PowerUpType.TRIPLE_SHOT) ∧
    (((fireBullets 24 none 0 0 50).map Bullet.angle = [0, -0.2, 0.2] ∧
      (fireBullets 24 none 0 0 50).length = 3) ∧
    (∀ level, 25 ≤ level →
      (fireBullets level none 0 0 50).map Bullet.angle = [-0.3, -0.15, 0, 0.15, 0.3] ∧
      (fireBullets level none 0 0 50).length = 5) ∧
    (∀ level, shotInterval level = if 30 ≤ level then 120 else 200)) :=
  ⟨by decide, weapon_tiering none (by decide) 0 0 50⟩

/-! ### C7 — leaving PLAYING does not cancel the boss director -/

/-- C7 counterexample: a warning armed at t=100 in a level-5 world; the
game then leaves PLAYING (the clearing effect runs, emptying all four
collections), yet when the armed 3000ms timeout fires at t=3100 a boss is
present — a boss spawned after the transition from a warning started
before it, and the warning flag was still up right after the transition. -/
theorem clear_transient_counterexample :
    (clearTransientEntities (triggerBossWarning sampleWorld 100)).bosses = [] ∧
    (clearTransientEntities (triggerBossWarning sampleWorld 100)).warningActive = true ∧
    (fireBossSpawn (clearTransientEntities (triggerBossWarning sampleWorld 100)) 3100).bosses.length = 1 ∧
    (fireBossSpawn (clearTransientEntities (triggerBossWarning sampleWorld 100)) 3100).warningActive = false :=
  ⟨rfl, rfl, rfl, rfl⟩

/-- C7 amended: leaving PLAYING synchronously clears the four transient
entity collections, but the boss director is not reset: the warning flag
and the armed spawn timeout survive untouched, so an in-flight warning
still spawns its bosses and escorts after the transition. -/
theorem clear_transient_amended (w : World) :
    (clearTransientEntities w).enemies = [] ∧
    (clearTransientEntities w).bullets = [] ∧
    (clearTransientEntities w).powerUps = [] ∧
    (clearTransientEntities w).bosses = [] ∧
    (clearTransientEntities w).warningActive = w.warningActive ∧
    (clearTransientEntities w).pendingSpawn = w.pendingSpawn ∧
    (clearTransientEntities w).level = w.level :=
  ⟨rfl, rfl, rfl, rfl, rfl, rfl, rfl⟩

/-! ### C3 — score on kill is re-awarded by every hit on a dead enemy -/

/-- The kill handler adds exactly the score value to the score, whatever
the level-up branches do. -/
lemma killProgress_score (bossCount : Nat) (scoreValue : Int) (p : Prog) :
    (killProgress bossCount scoreValue p).score = p.score + scoreValue := by
  unfold killProgress
  simp only [apply_ite Prog.score]
  split_ifs <;> rfl

lemma bulletVsBossList_nil (b : Bullet) (s : Int) :
    bulletVsBossList b [] s = (b, [], s) := rfl

lemma bulletVsEnemyList_nil (bossCount : Nat) (b : Bullet) (p : Prog) :
    bulletVsEnemyList bossCount b [] p = (b, [], p) := rfl

/-- Running k copies of an overlapping damage-1 bullet through the
collision pass against a single regular enemy (no bosses): the enemy ends
with health lowered by k, and the score has grown by one score-value per
hit whose post-hit health was ≤ 0 — that is, k minus the hits spent
getting the health from its initial value down to 1. -/
lemma collisionPass_replicate_spec (k : Nat) (b : Bullet) (e : Enemy) (p : Prog)
    (hov : rectsOverlap b.x b.y b.width b.height e.x e.y e.width e.height)
    (hdmg : b.damage = 1) :
    (collisionPass (List.replicate k b) [] [e] p).2.2.1 =
      [{ e with health := e.health - (k : Int) }] ∧
    (collisionPass (List.replicate k b) [] [e] p).2.2.2.score =
      p.score + e.scoreValue *
        ((k : Int) - max 0 (min (e.health - 1) (k : Int))) := by
  induction k generalizing e p with
  | zero =>
    constructor
    · show [e] = [{ e with health := e.health - ((0 : Nat) : Int) }]
      have h0 : e.health - ((0 : Nat) : Int) = e.health := by
        push_cast
        ring
      rw [h0]
    · show p.score = p.score + e.scoreValue *
        (((0 : Nat) : Int) - max 0 (min (e.health - 1) ((0 : Nat) : Int)))
      have h0 : (((0 : Nat) : Int) - max 0 (min (e.health - 1) ((0 : Nat) : Int))) = 0 := by
        omega
      rw [h0]
      ring
  | succ k ih =>
    rw [List.replicate_succ]
    simp only [collisionPass, bulletVsBossList_nil, bulletVsEnemyList,
      bulletVsEnemyList_nil, List.length_nil, hov, if_true, hdmg]
    by_cases hdead : e.health - 1 ≤ 0
    · rw [if_pos hdead]
      obtain ⟨ihl, ihs⟩ := ih { e with health := e.health - 1 }
        (killProgress 0 e.scoreValue
          { score := p.score, level := p.level, health := p.health,
            lastLevelHealed := p.lastLevelHealed }) hov
      refine ⟨?_, ?_⟩
      · rw [ihl]
        dsimp only
        simp only [List.cons.injEq, Enemy.mk.injEq, true_and, and_true]
        omega
      · rw [ihs, killProgress_score]
        dsimp only
        have hAB : ((k + 1 : Nat) : Int) -
            max 0 (min (e.health - 1) ((k + 1 : Nat) : Int)) =
            (k : Int) - max 0 (min (e.health - 1 - 1) (k : Int)) + 1 := by
          omega
        rw [hAB]
        ring
    · rw [if_neg hdead]
      obtain ⟨ihl, ihs⟩ := ih { e with health := e.health - 1 }
        { score := p.score, level := p.level, health := p.health,
          lastLevelHealed := p.lastLevelHealed } hov
      refine ⟨?_, ?_⟩
      · rw [ihl]
        dsimp only
        simp only [List.cons.injEq, Enemy.mk.injEq, true_and, and_true]
        omega
      · rw [ihs]
        dsimp only
        have hAB : ((k + 1 : Nat) : Int) -
            max 0 (min (e.health - 1) ((k + 1 : Nat) : Int)) =
            (k : Int) - max 0 (min (e.health - 1 - 1) (k : Int)) := by
          omega
        rw [hAB]

/-- C3 counterexample: a health-1, score-value-100 enemy hit by two
overlapping player bullets in one pass: the first hit kills it (+100) and
the second hit, on the already-dead enemy still present until end-of-pass
removal, re-enters the health ≤ 0 branch and awards +100 again — the score
grows by 200, not by the 100 a single award would give. -/
theorem score_double_award_counterexample :
    (collisionPass [samplePlayerBullet, samplePlayerBullet] [] [sampleEnemy]
      ⟨0, 1, 3, 1⟩).2.2.2.score = 200 ∧
    sampleEnemy.scoreValue = 100 ∧ sampleEnemy.health = 1 := by
  refine ⟨?_, rfl, rfl⟩
  norm_num [collisionPass, bulletVsBossList, bulletVsEnemyList, killProgress,
    samplePlayerBullet, sampleEnemy, rectsOverlap, PLAYER_MAX_HEALTH]

/-- C3 (amended): the score value is awarded at the tick health first
crosses ≤ 0 and then once more for every further bullet that hits the
already-dead enemy in the same pass: with k ≥ 1 overlapping damage-1
bullets against health h ≥ 1, the score grows by scoreValue·(k − h + 1)
when k ≥ h (not by scoreValue once), and the dead enemy is removed by the
end-of-pass cull. -/
theorem score_award_amended (k : Nat) (b : Bullet) (e : Enemy) (p : Prog)
    (hov : rectsOverlap b.x b.y b.width b.height e.x e.y e.width e.height)
    (hdmg : b.damage = 1) (hh : 1 ≤ e.health) :
    (collisionPass (List.replicate k b) [] [e] p).2.2.2.score =
      p.score + e.scoreValue * max 0 ((k : Int) - e.health + 1) ∧
    (e.health ≤ (k : Int) →
      cullDeadEnemies (collisionPass (List.replicate k b) [] [e] p).2.2.1 = []) := by
  obtain ⟨hlist, hscore⟩ := collisionPass_replicate_spec k b e p hov hdmg
  constructor
  · rw [hscore]
    have harith : (k : Int) - max 0 (min (e.health - 1) (k : Int)) =
        max 0 ((k : Int) - e.health + 1) := by
      omega
    rw [harith]
  · intro hk
    rw [hlist]
    unfold cullDeadEnemies
    rw [List.filter_cons]
    rw [decide_eq_false (by show ¬ (0 < e.health - (k : Int)); omega)]
    rfl

/-- Witness for C3 (amended): three bullets on a 2-health enemy award
2·100 = 200 points and the enemy is culled. -/
theorem score_award_amended_witness :
    rectsOverlap samplePlayerBullet.x samplePlayerBullet.y samplePlayerBullet.width
      samplePlayerBullet.height toughEnemy.x toughEnemy.y toughEnemy.width
      toughEnemy.height ∧
    samplePlayerBullet.damage = 1 ∧ 1 ≤ toughEnemy.health ∧
    ((collisionPass (List.replicate 3 samplePlayerBullet) [] [toughEnemy]
        ⟨0, 1, 3, 1⟩).2.2.2.score =
      (0 : Int) + toughEnemy.scoreValue * max 0 ((3 : Int) - toughEnemy.health + 1) ∧
    (toughEnemy.health ≤ (3 : Int) →
      cullDeadEnemies (collisionPass (List.replicate 3 samplePlayerBullet) []
        [toughEnemy] ⟨0, 1, 3, 1⟩).2.2.1 = [])) :=
  ⟨by simp [samplePlayerBullet, toughEnemy, rectsOverlap], rfl, by decide,
    score_award_amended 3 samplePlayerBullet toughEnemy ⟨0, 1, 3, 1⟩
      (by simp [samplePlayerBullet, toughEnemy, rectsOverlap]) rfl (by decide)⟩

/-! ### C2 — enemy-emitted bullets damage the emitting boss -/

/-- The bullet-vs-boss sweep never reads the bullet's `isEnemy` flag: its
effect on the bosses and the score is invariant under flipping it. -/
lemma bulletVsBossList_isEnemy_blind (v : Bool) :
    ∀ (b : Bullet) (bosses : List Enemy) (s : Int),
      (bulletVsBossList { b with isEnemy := v } bosses s).2 =
        (bulletVsBossList b bosses s).2 := by
  intro b bosses
  induction bosses generalizing b with
  | nil =>
    intro s
    rfl
  | cons e rest ih =>
    intro s
    rw [bulletVsBossList, bulletVsBossList]
    dsimp only
    by_cases h : rectsOverlap b.x b.y b.width b.height e.x e.y e.width e.height
    · rw [if_pos h, if_pos h]
      dsimp only
      rw [ih { b with y := -100 }]
    · rw [if_neg h, if_neg h]
      dsimp only
      rw [ih b]

/-- The bullet-vs-enemy sweep never reads the bullet's `isEnemy` flag
either. -/
lemma bulletVsEnemyList_isEnemy_blind (bossCount : Nat) (v : Bool) :
    ∀ (b : Bullet) (enemies : List Enemy) (q : Prog),
      (bulletVsEnemyList bossCount { b with isEnemy := v } enemies q).2 =
        (bulletVsEnemyList bossCount b enemies q).2 := by
  intro b enemies
  induction enemies generalizing b with
  | nil =>
    intro q
    rfl
  | cons e rest ih =>
    intro q
    rw [bulletVsEnemyList, bulletVsEnemyList]
    dsimp only
    by_cases h : rectsOverlap b.x b.y b.width b.height e.x e.y e.width e.height
    · rw [if_pos h, if_pos h]
      dsimp only
      rw [ih { b with y := -100 }]
    · rw [if_neg h, if_neg h]
      dsimp only
      rw [ih b]

/-- Every circular-burst bullet is an enemy bullet of damage 1 spawned at
the emitting boss's center, and — the boss having positive extent — its
8×8 box overlaps the boss under the collision test. -/
lemma circularBurst_overlaps (level : Nat) (boss : Enemy)
    (hw : 0 < boss.width) (hh : 0 < boss.height) :
    ∀ b ∈ circularBurst level boss,
      b.isEnemy = true ∧ b.damage = 1 ∧
      rectsOverlap b.x b.y b.width b.height boss.x boss.y boss.width boss.height := by
  intro b hb
  simp only [circularBurst, List.mem_map, List.mem_range] at hb
  obtain ⟨i, -, rfl⟩ := hb
  refine ⟨rfl, rfl, ?_, ?_, ?_, ?_⟩ <;> dsimp only <;> linarith

/-- Every targeted-burst bullet is an enemy bullet of damage 1 spawned at
the emitting boss's center, and its 10×10 box overlaps the boss. -/
lemma targetedBurst_overlaps (level : Nat) (boss : Enemy)
    (px py pwidth pheight : ℚ) (hw : 0 < boss.width) (hh : 0 < boss.height) :
    ∀ b ∈ targetedBurst level boss px py pwidth pheight,
      b.isEnemy = true ∧ b.damage = 1 ∧
      rectsOverlap b.x b.y b.width b.height boss.x boss.y boss.width boss.height := by
  intro b hb
  simp only [targetedBurst, List.mem_map, List.mem_range] at hb
  obtain ⟨j, -, rfl⟩ := hb
  refine ⟨rfl, rfl, ?_, ?_, ?_, ?_⟩ <;> dsimp only <;> linarith

/-- Every spiral bullet is an enemy bullet of damage 1 spawned at the
emitting boss's center, and its 8×8 box overlaps the boss. -/
lemma spiralBurst_overlaps (now : Int) (boss : Enemy)
    (hw : 0 < boss.width) (hh : 0 < boss.height) :
    ∀ b ∈ spiralBurst now boss,
      b.isEnemy = true ∧ b.damage = 1 ∧
      rectsOverlap b.x b.y b.width b.height boss.x boss.y boss.width boss.height := by
  intro b hb
  simp only [spiralBurst, List.mem_map, List.mem_range] at hb
  obtain ⟨i, -, rfl⟩ := hb
  refine ⟨rfl, rfl, ?_, ?_, ?_, ?_⟩ <;> dsimp only <;> linarith

/-- Running any list of overlapping damage-1 bullets through the collision
pass against a single boss (no regular enemies): the boss's health drops by
the number of bullets and every bullet ends marked for removal at
y = −100. -/
lemma collisionPass_boss_burst (bullets : List Bullet) (boss : Enemy) (p : Prog)
    (hall : ∀ b ∈ bullets,
      rectsOverlap b.x b.y b.width b.height boss.x boss.y boss.width boss.height ∧
        b.damage = 1) :
    ((collisionPass bullets [boss] [] p).2.1.map Enemy.health =
      [boss.health - (bullets.length : Int)]) ∧
    (∀ b2 ∈ (collisionPass bullets [boss] [] p).1, b2.y = -100) := by
  induction bullets generalizing boss p with
  | nil =>
    refine ⟨?_, by simp [collisionPass]⟩
    show [boss.health] = [boss.health - ((0 : Nat) : Int)]
    have h0 : boss.health - ((0 : Nat) : Int) = boss.health := by
      push_cast
      ring
    rw [h0]
  | cons b rest ih =>
    obtain ⟨hov, hdmg⟩ := hall b (List.mem_cons_self b rest)
    have hrest : ∀ b2 ∈ rest,
        rectsOverlap b2.x b2.y b2.width b2.height boss.x boss.y boss.width
          boss.height ∧ b2.damage = 1 :=
      fun b2 h2 => hall b2 (List.mem_cons_of_mem b h2)
    simp only [collisionPass, bulletVsBossList, bulletVsEnemyList_nil,
      bulletVsBossList_nil, hov, if_true, hdmg]
    by_cases hd : boss.health - 1 ≤ 0
    · simp only [hd, if_true]
      obtain ⟨ihl, ihb⟩ := ih
        { boss with health := boss.health - 1, id := "dead" } { p with score := _ } hrest
      refine ⟨?_, ?_⟩
      · rw [ihl]
        dsimp only
        simp only [List.cons.injEq, and_true, List.length_cons]
        omega
      · intro b2 h2
        rcases List.mem_cons.mp h2 with h2 | h2
        · rw [h2]
        · exact ihb b2 h2
    · simp only [hd, if_false]
      obtain ⟨ihl, ihb⟩ := ih
        { boss with health := boss.health - 1 } { p with score := _ } hrest
      refine ⟨?_, ?_⟩
      · rw [ihl]
        dsimp only
        simp only [List.cons.injEq, and_true, List.length_cons]
        omega
      · intro b2 h2
        rcases List.mem_cons.mp h2 with h2 | h2
        · rw [h2]
        · exact ihb b2 h2

/-- C2: neither bullet sweep reads `isEnemy`; every bullet of each of the
three center-emitting attack patterns — circular burst (20 bullets from
level 30, else 12), targeted burst (5 from level 30, else 3) and spiral
(4) — spawns at the emitting boss's center, overlapping it in that same
tick's collision pass, so the pass lowers the boss's own health by the
bullet's damage per emitted bullet and removes every emitted bullet. -/
theorem enemy_bullets_damage_bosses (level : Nat) (now : Int) (boss : Enemy)
    (px py pwidth pheight : ℚ) (p : Prog)
    (hw : 0 < boss.width) (hh : 0 < boss.height) :
    (∀ b ∈ circularBurst level boss, b.isEnemy = true ∧
      rectsOverlap b.x b.y b.width b.height boss.x boss.y boss.width boss.height) ∧
    ((collisionPass (circularBurst level boss) [boss] [] p).2.1.map Enemy.health =
      [boss.health - ((circularBurst level boss).length : Int)]) ∧
    ((circularBurst level boss).length = if 30 ≤ level then 20 else 12) ∧
    (∀ b2 ∈ (collisionPass (circularBurst level boss) [boss] [] p).1, b2.y = -100) ∧
    (∀ b ∈ targetedBurst level boss px py pwidth pheight, b.isEnemy = true ∧
      rectsOverlap b.x b.y b.width b.height boss.x boss.y boss.width boss.height) ∧
    ((collisionPass (targetedBurst level boss px py pwidth pheight) [boss] []
        p).2.1.map Enemy.health =
      [boss.health - ((targetedBurst level boss px py pwidth pheight).length : Int)]) ∧
    ((targetedBurst level boss px py pwidth pheight).length =
      if 30 ≤ level then 5 else 3) ∧
    (∀ b2 ∈ (collisionPass (targetedBurst level boss px py pwidth pheight)
      [boss] [] p).1, b2.y = -100) ∧
    (∀ b ∈ spiralBurst now boss, b.isEnemy = true ∧
      rectsOverlap b.x b.y b.width b.height boss.x boss.y boss.width boss.height) ∧
    ((collisionPass (spiralBurst now boss) [boss] [] p).2.1.map Enemy.health =
      [boss.health - ((spiralBurst now boss).length : Int)]) ∧
    ((spiralBurst now boss).length = 4) ∧
    (∀ b2 ∈ (collisionPass (spiralBurst now boss) [boss] [] p).1, b2.y = -100) ∧
    (∀ (b : Bullet) (v : Bool) (bosses : List Enemy) (s : Int),
      (bulletVsBossList { b with isEnemy := v } bosses s).2 =
        (bulletVsBossList b bosses s).2) ∧
    (∀ (bossCount : Nat) (b : Bullet) (v : Bool) (enemies : List Enemy) (q : Prog),
      (bulletVsEnemyList bossCount { b with isEnemy := v } enemies q).2 =
        (bulletVsEnemyList bossCount b enemies q).2) := by
  have hallc := circularBurst_overlaps level boss hw hh
  have hallt := targetedBurst_overlaps level boss px py pwidth pheight hw hh
  have halls := spiralBurst_overlaps now boss hw hh
  obtain ⟨hlc, hbc⟩ := collisionPass_boss_burst (circularBurst level boss) boss p
    (fun b h => ⟨(hallc b h).2.2, (hallc b h).2.1⟩)
  obtain ⟨hlt, hbt⟩ := collisionPass_boss_burst
    (targetedBurst level boss px py pwidth pheight) boss p
    (fun b h => ⟨(hallt b h).2.2, (hallt b h).2.1⟩)
  obtain ⟨hls, hbs⟩ := collisionPass_boss_burst (spiralBurst now boss) boss p
    (fun b h => ⟨(halls b h).2.2, (halls b h).2.1⟩)
  have hlenc : (circularBurst level boss).length = if 30 ≤ level then 20 else 12 := by
    simp only [circularBurst]
    rw [List.length_map, List.length_range]
  have hlent : (targetedBurst level boss px py pwidth pheight).length =
      if 30 ≤ level then 5 else 3 := by
    simp only [targetedBurst]
    rw [List.length_map, List.length_range]
    by_cases h30 : 30 ≤ level <;> simp [h30]
  have hlens : (spiralBurst now boss).length = 4 := by
    simp only [spiralBurst]
    rw [List.length_map, List.length_range]
  exact ⟨fun b h => ⟨(hallc b h).1, (hallc b h).2.2⟩, hlc, hlenc, hbc,
    fun b h => ⟨(hallt b h).1, (hallt b h).2.2⟩, hlt, hlent, hbt,
    fun b h => ⟨(halls b h).1, (halls b h).2.2⟩, hls, hlens, hbs,
    fun b v bosses s => bulletVsBossList_isEnemy_blind v b bosses s,
    fun bossCount b v enemies q => bulletVsEnemyList_isEnemy_blind bossCount v b enemies q⟩

/-- Witness for C2 at the level-5 boss geometry, with the player box at
the origin and the spiral attack at t = 0. -/
theorem enemy_bullets_damage_bosses_witness :
    (0 : ℚ) < sampleBoss.width ∧ (0 : ℚ) < sampleBoss.height ∧
    ((∀ b ∈ circularBurst 5 sampleBoss, b.isEnemy = true ∧
      rectsOverlap b.x b.y b.width b.height sampleBoss.x sampleBoss.y
        sampleBoss.width sampleBoss.height) ∧
    ((collisionPass (circularBurst 5 sampleBoss) [sampleBoss] []
        ⟨0, 1, 3, 1⟩).2.1.map Enemy.health =
      [sampleBoss.health - ((circularBurst 5 sampleBoss).length : Int)]) ∧
    ((circularBurst 5 sampleBoss).length = if 30 ≤ 5 then 20 else 12) ∧
    (∀ b2 ∈ (collisionPass (circularBurst 5 sampleBoss) [sampleBoss] []
      ⟨0, 1, 3, 1⟩).1, b2.y = -100) ∧
    (∀ b ∈ targetedBurst 5 sampleBoss 0 0 50 50, b.isEnemy = true ∧
      rectsOverlap b.x b.y b.width b.height sampleBoss.x sampleBoss.y
        sampleBoss.width sampleBoss.height) ∧
    ((collisionPass (targetedBurst 5 sampleBoss 0 0 50 50) [sampleBoss] []
        ⟨0, 1, 3, 1⟩).2.1.map Enemy.health =
      [sampleBoss.health - ((targetedBurst 5 sampleBoss 0 0 50 50).length : Int)]) ∧
    ((targetedBurst 5 sampleBoss 0 0 50 50).length = if 30 ≤ 5 then 5 else 3) ∧
    (∀ b2 ∈ (collisionPass (targetedBurst 5 sampleBoss 0 0 50 50)
      [sampleBoss] [] ⟨0, 1, 3, 1⟩).1, b2.y = -100) ∧
    (∀ b ∈ spiralBurst 0 sampleBoss, b.isEnemy = true ∧
      rectsOverlap b.x b.y b.width b.height sampleBoss.x sampleBoss.y
        sampleBoss.width sampleBoss.height) ∧
    ((collisionPass (spiralBurst 0 sampleBoss) [sampleBoss] []
        ⟨0, 1, 3, 1⟩).2.1.map Enemy.health =
      [sampleBoss.health - ((spiralBurst 0 sampleBoss).length : Int)]) ∧
    ((spiralBurst 0 sampleBoss).length = 4) ∧
    (∀ b2 ∈ (collisionPass (spiralBurst 0 sampleBoss) [sampleBoss] []
      ⟨0, 1, 3, 1⟩).1, b2.y = -100) ∧
    (∀ (b : Bullet) (v : Bool) (bosses : List Enemy) (s : Int),
      (bulletVsBossList { b with isEnemy := v } bosses s).2 =
        (bulletVsBossList b bosses s).2) ∧
    (∀ (bossCount : Nat) (b : Bullet) (v : Bool) (enemies : List Enemy) (q : Prog),
      (bulletVsEnemyList bossCount { b with isEnemy := v } enemies q).2 =
        (bulletVsEnemyList bossCount b enemies q).2)) :=
  ⟨by decide, by decide,
    enemy_bullets_damage_bosses 5 0 sampleBoss 0 0 50 50 ⟨0, 1, 3, 1⟩
      (by decide) (by decide)⟩

/-! ### C9 — boss wave composition at warning completion -/

/-- Unfolding of the warning trigger when its guard holds. -/
lemma triggerBossWarning_fire (w : World) (t0 : Int)
    (hL : w.level ∈ bossLevels) (hb : w.bosses = [])
    (hw : w.warningActive = false) (cfg : BossConfig)
    (hcfg : BOSS_CONFIGS w.level = some cfg) :
    triggerBossWarning w t0 =
      { w with
        warningActive := true,
        enemies := [],
        pendingSpawn := some ⟨t0 + 3000, cfg, t0⟩ } := by
  unfold triggerBossWarning
  rw [if_pos ⟨hL, by rw [hb]; rfl, hw⟩, hcfg]

/-- Unfolding of the armed spawn timeout once its deadline has passed. -/
lemma fireBossSpawn_fire (w : World) (pend : PendingSpawn) (now : Int)
    (hp : w.pendingSpawn = some pend) (ht : pend.fireAt ≤ now) :
    fireBossSpawn w now =
      { w with
        bosses := w.bosses ++
          (List.range (if w.level = 20 then 2 else if w.level = 30 then 3 else 1)).map
            (mkWaveBoss pend.cfg pend.trigNow
              (if w.level = 20 then 2 else if w.level = 30 then 3 else 1)),
        enemies := w.enemies ++
          (List.range (if w.level = 20 then 2 else if w.level = 30 then 3 else
            if w.level = 50 then 5 else 0)).map
            (mkEscort pend.trigNow
              (if w.level = 20 then 2 else if w.level = 30 then 3 else
                if w.level = 50 then 5 else 0)),
        bossEntranceTimer := pend.trigNow,
        warningActive := false,
        pendingSpawn := none } := by
  unfold fireBossSpawn
  rw [hp]
  dsimp only
  rw [if_pos ht]

/-- C9: from a boss level with no boss and no warning, triggering the
warning clears all regular enemies on the spot, and when the armed timeout
fires 3000ms later the world holds exactly 2 bosses at level 20, 3 at level
30 and 1 otherwise, evenly spread over the field width with the horizontal
direction alternating by index, together with exactly 2/3/5 HEAVY escorts
of doubled health at levels 20/30/50 and none otherwise. -/
theorem boss_wave_spawn (w : World) (t0 : Int)
    (hL : w.level = 5 ∨ w.level = 10 ∨ w.level = 20 ∨ w.level = 30 ∨ w.level = 50)
    (hb : w.bosses = []) (hw : w.warningActive = false) :
    (triggerBossWarning w t0).enemies = [] ∧
    (fireBossSpawn (triggerBossWarning w t0) (t0 + 3000)).bosses.length =
      (if w.level = 20 then 2 else if w.level = 30 then 3 else 1) ∧
    (fireBossSpawn (triggerBossWarning w t0) (t0 + 3000)).enemies.length =
      (if w.level = 20 then 2 else if w.level = 30 then 3 else
        if w.level = 50 then 5 else 0) ∧
    (∀ e ∈ (fireBossSpawn (triggerBossWarning w t0) (t0 + 3000)).enemies,
      e.type = EnemyType.HEAVY ∧
      e.health = (ENEMY_CONFIGS EnemyType.HEAVY).health * 2 ∧
      e.maxHealth = (ENEMY_CONFIGS EnemyType.HEAVY).health * 2) ∧
    (∃ cfg, BOSS_CONFIGS w.level = some cfg ∧
      ∀ (i : Nat)
        (hi : i < (fireBossSpawn (triggerBossWarning w t0) (t0 + 3000)).bosses.length),
        ((fireBossSpawn (triggerBossWarning w t0) (t0 + 3000)).bosses.get ⟨i, hi⟩).x =
          CANVAS_WIDTH /
            (((fireBossSpawn (triggerBossWarning w t0) (t0 + 3000)).bosses.length : ℚ) + 1) *
            ((i : ℚ) + 1) - cfg.width / 2 ∧
        ((fireBossSpawn (triggerBossWarning w t0) (t0 + 3000)).bosses.get ⟨i, hi⟩).speed =
          cfg.speed * (if i % 2 = 0 then 1 else -1)) := by
  obtain ⟨cfg, hcfg⟩ : ∃ cfg, BOSS_CONFIGS w.level = some cfg := by
    rcases hL with hL | hL | hL | hL | hL <;> rw [hL] <;> exact ⟨_, rfl⟩
  have hmem : w.level ∈ bossLevels := by
    rcases hL with hL | hL | hL | hL | hL <;> rw [hL] <;> simp [bossLevels]
  have htrig := triggerBossWarning_fire w t0 hmem hb hw cfg hcfg
  have hfire := fireBossSpawn_fire (triggerBossWarning w t0) ⟨t0 + 3000, cfg, t0⟩
    (t0 + 3000) (by rw [htrig]) (by dsimp only; omega)
  refine ⟨by rw [htrig], ?_, ?_, ?_, ⟨cfg, hcfg, ?_⟩⟩
  · rw [hfire]
    simp [htrig, hb]
  · rw [hfire]
    simp [htrig]
  · intro e he
    rw [hfire] at he
    simp only [htrig] at he
    simp only [List.nil_append, List.mem_map, List.mem_range] at he
    obtain ⟨i, -, rfl⟩ := he
    exact ⟨rfl, rfl, rfl⟩
  · intro i hi
    have hlen2 : (fireBossSpawn (triggerBossWarning w t0) (t0 + 3000)).bosses.length =
        (if w.level = 20 then 2 else if w.level = 30 then 3 else 1) := by
      rw [hfire]
      simp [htrig, hb]
    have hlist : (fireBossSpawn (triggerBossWarning w t0) (t0 + 3000)).bosses =
        (List.range (if w.level = 20 then 2 else if w.level = 30 then 3 else 1)).map
          (mkWaveBoss cfg t0 (if w.level = 20 then 2 else if w.level = 30 then 3 else 1)) := by
      rw [hfire]
      simp [htrig, hb]
    have hget : (fireBossSpawn (triggerBossWarning w t0) (t0 + 3000)).bosses.get ⟨i, hi⟩ =
        mkWaveBoss cfg t0 (if w.level = 20 then 2 else if w.level = 30 then 3 else 1) i := by
      rw [List.get_of_eq hlist]
      simp [List.get_eq_getElem]
    rw [hget, hlen2]
    exact ⟨rfl, rfl⟩

/-- Witness for C9: the level-5 world spawns one boss and no escorts. -/
theorem boss_wave_spawn_witness :
    (sampleWorld.level = 5 ∨ sampleWorld.level = 10 ∨ sampleWorld.level = 20 ∨
      sampleWorld.level = 30 ∨ sampleWorld.level = 50) ∧
    sampleWorld.bosses = [] ∧ sampleWorld.warningActive = false ∧
    ((triggerBossWarning sampleWorld 100).enemies = [] ∧
    (fireBossSpawn (triggerBossWarning sampleWorld 100) (100 + 3000)).bosses.length =
      (if sampleWorld.level = 20 then 2 else if sampleWorld.level = 30 then 3 else 1) ∧
    (fireBossSpawn (triggerBossWarning sampleWorld 100) (100 + 3000)).enemies.length =
      (if sampleWorld.level = 20 then 2 else if sampleWorld.level = 30 then 3 else
        if sampleWorld.level = 50 then 5 else 0) ∧
    (∀ e ∈ (fireBossSpawn (triggerBossWarning sampleWorld 100) (100 + 3000)).enemies,
      e.type = EnemyType.HEAVY ∧
      e.health = (ENEMY_CONFIGS EnemyType.HEAVY).health * 2 ∧
      e.maxHealth = (ENEMY_CONFIGS EnemyType.HEAVY).health * 2) ∧
    (∃ cfg, BOSS_CONFIGS sampleWorld.level = some cfg ∧
      ∀ (i : Nat)
        (hi : i < (fireBossSpawn (triggerBossWarning sampleWorld 100)
          (100 + 3000)).bosses.length),
        ((fireBossSpawn (triggerBossWarning sampleWorld 100)
            (100 + 3000)).bosses.get ⟨i, hi⟩).x =
          CANVAS_WIDTH /
            (((fireBossSpawn (triggerBossWarning sampleWorld 100)
              (100 + 3000)).bosses.length : ℚ) + 1) *
            ((i : ℚ) + 1) - cfg.width / 2 ∧
        ((fireBossSpawn (triggerBossWarning sampleWorld 100)
            (100 + 3000)).bosses.get ⟨i, hi⟩).speed =
          cfg.speed * (if i % 2 = 0 then 1 else -1))) :=
  ⟨Or.inl rfl, rfl, rfl,
    boss_wave_spawn sampleWorld 100 (Or.inl rfl) rfl rfl⟩

end LSRstar
